import Mathlib

/-!
Verification of the Flashnotify notification-dispatch core against its
specification.  The definitions below are a shallow embedding of the Python
source: `core/queue.py` (task queue, worker retry loop),
`core/decorators.py` (circuit breaker) and
`core/notification_system.py` (channel sends with retries, message
formatting, priority resolution, the `notify` state machine).
Machine integers are modelled as `Nat`/`Int`; timestamps as seconds
(`Nat`); fallible Python code returns `Except`; the pseudo-random
per-attempt send outcomes are an injected oracle `Channel -> Nat -> Bool`.
`datetime` fields of `QueuedTask` that no claim mentions
(`created_at`, `started_at`, `completed_at`) are elided.
-/

namespace Flashnotify

/-- Task states, from `TaskStatus` in `core/queue.py`. -/
inductive TaskStatus where
  | PENDING
  | RUNNING
  | COMPLETED
  | FAILED
  | RETRYING
deriving DecidableEq

/-- A queued task, from the `QueuedTask` dataclass in `core/queue.py`
(`func`, `args`, `kwargs` and the datetime fields are elided; `result`
is modelled as an opaque `Option String`). -/
structure QueuedTask where
  id : String
  status : TaskStatus
  error : Option String
  result : Option String
  retry_count : Nat
  max_retries : Nat
  priority : Int
deriving DecidableEq

/-- One failed invocation of a task by a worker, from the `except` branch of
`AsyncQueue._worker` (queue.py lines 149-161) and the identical branch of
`ThreadPoolQueue._worker` (lines 311-326): record `error = str(e)`,
increment `retry_count`; if `retry_count < max_retries` mark RETRYING and
re-enqueue (the Bool is `true`), else mark FAILED (`false`). -/
def worker_fail_step (t : QueuedTask) (err : String) : QueuedTask × Bool :=
  let t1 : QueuedTask := { t with error := some err, retry_count := t.retry_count + 1 }
  if t1.retry_count < t1.max_retries then
    ({ t1 with status := TaskStatus.RETRYING }, true)
  else
    ({ t1 with status := TaskStatus.FAILED }, false)

/-- Repeated worker processing of a task whose work function raises on every
invocation, with an explicit invocation budget `b` (the recursion fuel; the
theorems instantiate it with `max_retries - retry_count`, which
`run_failing_aux_exhausts` shows is exactly the number of invocations, so
the `(t1, true), 0` branch is never reached from `run_always_failing`).
Returns the final task record and the total number of invocations. -/
def run_failing_aux (err : String) (b : Nat) (t : QueuedTask) : QueuedTask × Nat :=
  match worker_fail_step t err, b with
  | (t1, false), _ => (t1, 1)
  | (t1, true), 0 => (t1, 1)
  | (t1, true), Nat.succ k =>
    let p := run_failing_aux err k t1
    (p.1, p.2 + 1)

/-- The worker loop serving a single always-failing task until it is
terminal: each RETRYING re-enqueue is eventually dequeued again (the task
stays in the registry), so the processing sequence is exactly this
recursion. -/
def run_always_failing (t : QueuedTask) (err : String) : QueuedTask × Nat :=
  run_failing_aux err (t.max_retries - t.retry_count) t

lemma worker_fail_step_retry (t : QueuedTask) (err : String)
    (h : t.retry_count + 1 < t.max_retries) :
    worker_fail_step t err =
      ({ t with error := some err, retry_count := t.retry_count + 1,
                status := TaskStatus.RETRYING }, true) := by
  simp only [worker_fail_step]
  rw [if_pos h]

lemma worker_fail_step_exhaust (t : QueuedTask) (err : String)
    (h : ¬ t.retry_count + 1 < t.max_retries) :
    worker_fail_step t err =
      ({ t with error := some err, retry_count := t.retry_count + 1,
                status := TaskStatus.FAILED }, false) := by
  simp only [worker_fail_step]
  rw [if_neg h]

lemma run_failing_aux_exhausts (err : String) :
    ∀ (b : Nat) (t : QueuedTask), 1 ≤ b → t.retry_count + b = t.max_retries →
      run_failing_aux err b t =
        ({ t with status := TaskStatus.FAILED, error := some err,
                  retry_count := t.max_retries }, b) := by
  intro b
  induction b with
  | zero => intro t hb; omega
  | succ k ih =>
    intro t hb hmax
    rcases Nat.eq_zero_or_pos k with hk | hk
    · subst hk
      have hlt : ¬ t.retry_count + 1 < t.max_retries := by omega
      rw [run_failing_aux.eq_def, worker_fail_step_exhaust t err hlt]
      have hrc : t.retry_count + 1 = t.max_retries := by omega
      simp [hrc]
    · have hlt : t.retry_count + 1 < t.max_retries := by omega
      rw [run_failing_aux.eq_def, worker_fail_step_retry t err hlt]
      simp only
      rw [ih _ (by omega) (by simp; omega)]

/-- A fresh task with `max_retries = 1`, as `AsyncQueue.enqueue` creates it. -/
def task_mr1 : QueuedTask :=
  { id := "t1", status := TaskStatus.PENDING, error := none, result := none,
    retry_count := 0, max_retries := 1, priority := 0 }

/-- A fresh task with the default `max_retries = 3`. -/
def task_mr3 : QueuedTask :=
  { id := "t3", status := TaskStatus.PENDING, error := none, result := none,
    retry_count := 0, max_retries := 3, priority := 0 }

/-- Claim C1, counterexample: for a fresh always-failing task with
`max_retries = N = 1` the worker loop does end in FAILED with
`retry_count = 1`, but the work function is invoked exactly once, not
`N + 1 = 2` times as the claim states. -/
theorem C1_counterexample :
    (run_always_failing task_mr1 "boom").1.status = TaskStatus.FAILED ∧
    (run_always_failing task_mr1 "boom").1.retry_count = 1 ∧
    ¬ (run_always_failing task_mr1 "boom").2 = 1 + 1 := by
  decide

/-- Claim C1 (amended): a task enqueued with `max_retries = N ≥ 1` whose work
function raises on every invocation ends with status FAILED and
`retry_count = N`, after exactly `N` invocations of the work function in
total — the worker increments `retry_count` on every failed invocation,
the first included, and fails the task once `retry_count` reaches
`max_retries`. -/
theorem C1_retries_exhausted (t : QueuedTask) (err : String)
    (h0 : t.retry_count = 0) (h1 : 1 ≤ t.max_retries) :
    (run_always_failing t err).1.status = TaskStatus.FAILED ∧
    (run_always_failing t err).1.retry_count = t.max_retries ∧
    (run_always_failing t err).2 = t.max_retries := by
  have hb : t.max_retries - t.retry_count = t.max_retries := by omega
  have := run_failing_aux_exhausts err (t.max_retries - t.retry_count) t
    (by omega) (by omega)
  rw [run_always_failing, this, hb]
  exact ⟨rfl, rfl, rfl⟩

/-- Witness for C1: the amended claim evaluated on a concrete fresh task with
the default retry budget of 3. -/
theorem C1_retries_exhausted_witness :
    (run_always_failing task_mr3 "boom").1.status = TaskStatus.FAILED ∧
    (run_always_failing task_mr3 "boom").1.retry_count = 3 ∧
    (run_always_failing task_mr3 "boom").2 = 3 :=
  C1_retries_exhausted task_mr3 "boom" rfl (by decide)

/-- Circuit-breaker state, from the attributes installed by
`add_circuit_breaker` in `core/decorators.py` (lines 88-93):
`_circuit_breaker_failures`, `_circuit_breaker_last_failure` (a timestamp
in seconds, `none` initially), `_circuit_breaker_max_failures`,
`_circuit_breaker_timeout`. -/
structure CircuitBreaker where
  failures : Nat
  last_failure : Option Nat
  max_failures : Nat
  timeout : Nat
deriving DecidableEq

/-- Fresh breaker state as installed by the decorated `__init__`. -/
def cbInit (max_failures timeout : Nat) : CircuitBreaker :=
  { failures := 0, last_failure := none, max_failures := max_failures,
    timeout := timeout }

/-- Models `(datetime.now() - last_failure).seconds` for `now ≥ lf`:
Python timedelta `.seconds` is the seconds component with whole days
removed, i.e. the elapsed seconds modulo 86400 — not the total elapsed
seconds. -/
def elapsed_seconds (now lf : Nat) : Nat := (now - lf) % 86400

/-- `is_circuit_open` from `core/decorators.py` lines 97-107.  It may mutate
the state (the self-reset `failures := 0` branch), so it returns the
decision together with the state after the call. -/
def is_circuit_open (s : CircuitBreaker) (now : Nat) : Bool × CircuitBreaker :=
  if s.max_failures ≤ s.failures then
    match s.last_failure with
    | some lf =>
      if elapsed_seconds now lf < s.timeout then (true, s)
      else (false, { s with failures := 0 })
    | none => (false, s)
  else (false, s)

/-- `record_failure` from `core/decorators.py` lines 109-112. -/
def record_failure (s : CircuitBreaker) (now : Nat) : CircuitBreaker :=
  { s with failures := s.failures + 1, last_failure := some now }

/-- `record_success` from `core/decorators.py` lines 114-117. -/
def record_success (s : CircuitBreaker) : CircuitBreaker :=
  { s with failures := 0, last_failure := none }

/-- Claim C2, evaluation at the failing input: with `max_failures = 1` and
`timeout = 60`, record one failure at t = 0 and check the breaker at
t = 86400 (exactly 24 hours later).  The elapsed time, 86400 s, far
exceeds the 60 s timeout, yet `is_circuit_open` reports the circuit open
and does not reset, because the code reads `timedelta.seconds`
(elapsed mod 86400 = 0 < 60) instead of the total elapsed seconds. -/
theorem C2_seconds_wrap_eval :
    (is_circuit_open (record_failure (cbInit 1 60) 0) 86400).1 = true ∧
    (is_circuit_open (record_failure (cbInit 1 60) 0) 86400).2.failures = 1 ∧
    (cbInit 1 60).timeout < 86400 - 0 := by
  decide

/-- `EmergencyType` from `core/notification_system.py` lines 20-25,
in declaration order. -/
inductive EmergencyType where
  | WEATHER
  | SECURITY
  | HEALTH
  | INFRASTRUCTURE
  | ACADEMIC
deriving DecidableEq

/-- The `.value` strings of the `EmergencyType` members. -/
def EmergencyType.value : EmergencyType → String
  | EmergencyType.WEATHER => "météo"
  | EmergencyType.SECURITY => "sécurité"
  | EmergencyType.HEALTH => "santé"
  | EmergencyType.INFRASTRUCTURE => "infrastructure"
  | EmergencyType.ACADEMIC => "académique"

/-- `Priority` from `core/notification_system.py` lines 28-32. -/
inductive Priority where
  | CRITICAL
  | HIGH
  | MEDIUM
  | LOW
deriving DecidableEq

/-- The numeric `.value` of each `Priority` member. -/
def Priority.value : Priority → Nat
  | Priority.CRITICAL => 4
  | Priority.HIGH => 3
  | Priority.MEDIUM => 2
  | Priority.LOW => 1

/-- The `.name` string of each `Priority` member. -/
def Priority.pname : Priority → String
  | Priority.CRITICAL => "CRITICAL"
  | Priority.HIGH => "HIGH"
  | Priority.MEDIUM => "MEDIUM"
  | Priority.LOW => "LOW"

/-- `get_priority` from `core/notification_system.py` lines 35-44. -/
def get_priority (emergency_type : EmergencyType) : Priority :=
  if emergency_type = EmergencyType.SECURITY ∨ emergency_type = EmergencyType.HEALTH then
    Priority.CRITICAL
  else if emergency_type = EmergencyType.WEATHER then
    Priority.HIGH
  else if emergency_type = EmergencyType.INFRASTRUCTURE then
    Priority.MEDIUM
  else
    Priority.LOW

/-- The members of `EmergencyType` in Python iteration (declaration)
order. -/
def emergencyTypeMembers : List EmergencyType :=
  [EmergencyType.WEATHER, EmergencyType.SECURITY, EmergencyType.HEALTH,
   EmergencyType.INFRASTRUCTURE, EmergencyType.ACADEMIC]

/-- Resolution of an emergency-type string tag to an enum member, from
`AsyncQueue.send_notification_sync` in `core/queue.py` lines 208-213:
start from ACADEMIC, take the first member whose `.value` equals the tag. -/
def emergency_from_string (tag : String) : EmergencyType :=
  (emergencyTypeMembers.find? (fun et => et.value == tag)).getD
    EmergencyType.ACADEMIC

/-- Claim C6: the priority resolver maps SECURITY and HEALTH to CRITICAL,
WEATHER to HIGH, INFRASTRUCTURE to MEDIUM, ACADEMIC to LOW, and an
unrecognized emergency-type tag resolves (via the default branch of the
tag-to-enum lookup) to LOW. -/
theorem C6_priority_mapping :
    get_priority EmergencyType.SECURITY = Priority.CRITICAL ∧
    get_priority EmergencyType.HEALTH = Priority.CRITICAL ∧
    get_priority EmergencyType.WEATHER = Priority.HIGH ∧
    get_priority EmergencyType.INFRASTRUCTURE = Priority.MEDIUM ∧
    get_priority EmergencyType.ACADEMIC = Priority.LOW ∧
    ∀ tag : String, (∀ et : EmergencyType, et.value ≠ tag) →
      get_priority (emergency_from_string tag) = Priority.LOW := by
  refine ⟨rfl, rfl, rfl, rfl, rfl, ?_⟩
  intro tag h
  have h1 : (EmergencyType.value EmergencyType.WEATHER == tag) = false := by
    simpa using h EmergencyType.WEATHER
  have h2 : (EmergencyType.value EmergencyType.SECURITY == tag) = false := by
    simpa using h EmergencyType.SECURITY
  have h3 : (EmergencyType.value EmergencyType.HEALTH == tag) = false := by
    simpa using h EmergencyType.HEALTH
  have h4 : (EmergencyType.value EmergencyType.INFRASTRUCTURE == tag) = false := by
    simpa using h EmergencyType.INFRASTRUCTURE
  have h5 : (EmergencyType.value EmergencyType.ACADEMIC == tag) = false := by
    simpa using h EmergencyType.ACADEMIC
  simp [emergency_from_string, emergencyTypeMembers, List.find?, h1, h2, h3,
    h4, h5, get_priority]

/-- Witness for C6: an unrecognized tag maps to LOW. -/
theorem C6_priority_mapping_witness :
    get_priority (emergency_from_string "zzz") = Priority.LOW :=
  C6_priority_mapping.2.2.2.2.2 "zzz" (by intro et; cases et <;> decide)

/-- The retry loop of the `retry_on_failure(retries)` decorator in
`core/notification_system.py` lines 57-70, unrolled over the 1-based
attempt index: `attempt` is the current index, `remaining` the number of
further attempts allowed after this one (`retries - attempt` at entry).
`f` gives the outcome of each attempt.  Returns the final outcome and the
number of attempts actually made. -/
def retryGo {α : Type} (f : Nat → Except String α) :
    Nat → Nat → Except String α × Nat
  | attempt, remaining =>
    match f attempt with
    | Except.ok a => (Except.ok a, 1)
    | Except.error e =>
      match remaining with
      | 0 => (Except.error e, 1)
      | Nat.succ r =>
        let p := retryGo f (attempt + 1) r
        (p.1, p.2 + 1)

/-- `retry_on_failure(retries)` applied to a fallible call, for
`retries ≥ 1` (every use in the source passes `retries = 3`): the loop
`for attempt in range(1, retries + 1)` returns on the first success and
re-raises on the last attempt. -/
def retry_on_failure {α : Type} (retries : Nat) (f : Nat → Except String α) :
    Except String α × Nat :=
  retryGo f 1 (retries - 1)

/-- Whether an `Except` outcome is a raised exception. -/
def isErr {α : Type} : Except String α → Bool
  | Except.error _ => true
  | Except.ok _ => false

/-- Claim C7: each single-channel send is wrapped in up to 3 immediate
retries with no backoff: the attempt is repeated until it succeeds or the
3-attempt budget is exhausted, and the exception escapes only when all 3
attempts failed (in which case exactly 3 attempts were made and the last
error propagates). -/
theorem C7_channel_retry {α : Type} (f : Nat → Except String α) :
    (isErr (retry_on_failure 3 f).1 = true ↔
      (isErr (f 1) = true ∧ isErr (f 2) = true ∧ isErr (f 3) = true)) ∧
    1 ≤ (retry_on_failure 3 f).2 ∧ (retry_on_failure 3 f).2 ≤ 3 ∧
    (isErr (retry_on_failure 3 f).1 = true →
      (retry_on_failure 3 f).2 = 3 ∧ (retry_on_failure 3 f).1 = f 3) ∧
    (isErr (retry_on_failure 3 f).1 = false →
      (retry_on_failure 3 f).1 = f (retry_on_failure 3 f).2 ∧
      ∀ i, 1 ≤ i → i < (retry_on_failure 3 f).2 → isErr (f i) = true) := by
  rcases h1 : f 1 with e1 | a1
  · rcases h2 : f 2 with e2 | a2
    · rcases h3 : f 3 with e3 | a3
      · have heq : retry_on_failure 3 f = (Except.error e3, 3) := by
          simp [retry_on_failure, retryGo, h1, h2, h3]
        rw [heq]
        refine ⟨by simp [isErr, h1, h2, h3], by norm_num, by norm_num, ?_, ?_⟩
        · exact fun _ => ⟨rfl, rfl⟩
        · intro hc; simp [isErr] at hc
      · have heq : retry_on_failure 3 f = (Except.ok a3, 3) := by
          simp [retry_on_failure, retryGo, h1, h2, h3]
        rw [heq]
        refine ⟨by simp [isErr, h3], by norm_num, by norm_num, ?_, ?_⟩
        · intro hc; simp [isErr] at hc
        · intro _
          refine ⟨h3.symm, ?_⟩
          intro i hi1 hi2
          have hi : i = 1 ∨ i = 2 := by omega
          rcases hi with hi | hi <;> subst hi <;> simp [isErr, h1, h2]
    · have heq : retry_on_failure 3 f = (Except.ok a2, 2) := by
        simp [retry_on_failure, retryGo, h1, h2]
      rw [heq]
      refine ⟨by simp [isErr, h2], by norm_num, by norm_num, ?_, ?_⟩
      · intro hc; simp [isErr] at hc
      · intro _
        refine ⟨h2.symm, ?_⟩
        intro i hi1 hi2
        have hi : i = 1 := by omega
        subst hi
        simp [isErr, h1]
  · have heq : retry_on_failure 3 f = (Except.ok a1, 1) := by
      simp [retry_on_failure, retryGo, h1]
    rw [heq]
    refine ⟨by simp [isErr, h1], by norm_num, by norm_num, ?_, ?_⟩
    · intro hc; simp [isErr] at hc
    · intro _
      refine ⟨h1.symm, ?_⟩
      intro i hi1 hi2
      omega

/-- Witness for C7: three forced-failing attempts exhaust the budget and the
error escapes after exactly 3 attempts. -/
theorem C7_channel_retry_witness :
    (retry_on_failure 3 (fun _ => (Except.error "x" : Except String Unit))).2 = 3 :=
  ((C7_channel_retry (fun _ => (Except.error "x" : Except String Unit))).2.2.2.1
    (by decide)).1

/-- Models Python `str.upper` on the alphabet actually occurring in
`EmergencyType` values (ASCII letters plus the accented é). -/
def pyUpperChar (c : Char) : Char :=
  if c = 'é' then 'É' else c.toUpper

/-- Python `str.upper` for the strings this system uppercases, applied
characterwise. -/
def pyUpper (s : String) : String := String.mk (s.data.map pyUpperChar)

/-- `FormattingMixin.format_message` from `core/notification_system.py`
lines 148-155: build `title \n body` and, when an emergency type is given
(enum members are always truthy in Python, `None` is falsy), prepend the
bracketed uppercased tag.  A total pure function. -/
def format_message (title body : String) (emergency_type : Option EmergencyType) :
    String :=
  let formatted := title ++ "\n" ++ body
  match emergency_type with
  | some et => "[" ++ pyUpper et.value ++ "] " ++ formatted
  | none => formatted

/-- Claim C8: for every title, body and optional emergency type the
formatter returns the newline-joined pair, prefixed with the bracketed
uppercased emergency tag exactly when a tag is supplied; being a total
Lean function it is pure and never fails.  The concrete conjuncts pin the
uppercased forms of every tag, accents included. -/
theorem C8_format_message (title body : String) :
    format_message title body none = title ++ "\n" ++ body ∧
    (∀ et : EmergencyType,
      format_message title body (some et) =
        "[" ++ pyUpper et.value ++ "] " ++ (title ++ "\n" ++ body)) ∧
    pyUpper (EmergencyType.value EmergencyType.WEATHER) = "MÉTÉO" ∧
    pyUpper (EmergencyType.value EmergencyType.SECURITY) = "SÉCURITÉ" ∧
    pyUpper (EmergencyType.value EmergencyType.HEALTH) = "SANTÉ" ∧
    pyUpper (EmergencyType.value EmergencyType.INFRASTRUCTURE) = "INFRASTRUCTURE" ∧
    pyUpper (EmergencyType.value EmergencyType.ACADEMIC) = "ACADÉMIQUE" := by
  refine ⟨rfl, fun et => rfl, ?_, ?_, ?_, ?_, ?_⟩ <;> decide

/-- Delivery channels. -/
inductive Channel where
  | email
  | push
  | sms
deriving DecidableEq

/-- A user record as the notifier consumes it (the `to_dict` of a stored
user): id, email address, phone (`none` when the key is absent, possibly
the empty string), and the `prefers_email` flag read by
`UserPreferenceMixin.prefers_email`. -/
structure User where
  id : Nat
  email : String
  phone : Option String
  prefers_email : Bool
deriving DecidableEq

/-- A per-channel success record, the dict built by the send mixins
(`status: success` is implicit in being on the `ok` side; the push
recipient `user['id']` is rendered as a string). -/
structure SendResult where
  channel : String
  recipient : String
  message : String
deriving DecidableEq

/-- Python truthiness of `'phone' in user and user['phone']` from
`AcademicNotifier.send_all_channels` (line 228): present and non-empty. -/
def hasPhone (u : User) : Bool :=
  match u.phone with
  | some p => p != ""
  | none => false

/-- `EmailMixin.send_email` (notification_system.py lines 98-120) under its
`retry_on_failure(retries=3)` decorator; `fails i` is the simulated
per-attempt fault (`random.random() < 0.1` in the source; error-message
apostrophes elided). -/
def send_email (fails : Nat → Bool) (message email : String) :
    Except String SendResult × Nat :=
  retry_on_failure 3 (fun i =>
    if fails i then Except.error "Echec envoi Email"
    else Except.ok { channel := "Email", recipient := email, message := message })

/-- `PushNotificationMixin.send_push` (lines 123-145) under its retry
decorator. -/
def send_push (fails : Nat → Bool) (message : String) (user_id : Nat) :
    Except String SendResult × Nat :=
  retry_on_failure 3 (fun i =>
    if fails i then Except.error "Echec envoi Notification Push"
    else Except.ok { channel := "Push", recipient := toString user_id,
                     message := message })

/-- `SMSMixin.send_sms` (lines 73-95) under its retry decorator. -/
def send_sms (fails : Nat → Bool) (message number : String) :
    Except String SendResult × Nat :=
  retry_on_failure 3 (fun i =>
    if fails i then Except.error "Echec envoi SMS"
    else Except.ok { channel := "SMS", recipient := number, message := message })

/-- `AcademicNotifier.send_all_channels` (lines 214-234): attempt email,
then push, then SMS when the user has a non-empty phone; each attempt is
wrapped in its own try/except, so a failure is swallowed and the next
channel still runs.  Returns the collected successes and the list of
channels on which a send was attempted. -/
def send_all_channels (fails : Channel → Nat → Bool) (message : String)
    (u : User) : List SendResult × List Channel :=
  let e := send_email (fails Channel.email) message u.email
  let re : List SendResult :=
    match e.1 with
    | Except.ok x => [x]
    | Except.error _ => []
  let p := send_push (fails Channel.push) message u.id
  let rp : List SendResult :=
    match p.1 with
    | Except.ok x => [x]
    | Except.error _ => []
  if hasPhone u then
    let s := send_sms (fails Channel.sms) message (u.phone.getD "")
    let rs : List SendResult :=
      match s.1 with
      | Except.ok x => [x]
      | Except.error _ => []
    (re ++ rp ++ rs, [Channel.email, Channel.push, Channel.sms])
  else
    (re ++ rp, [Channel.email, Channel.push])

/-- The ways a `notify` call can raise (the source raises bare `Exception`
values; they are distinguished here by provenance). -/
inductive NotifyError where
  | circuitOpen
  | delivery (msg : String)
  | archiveFailed (msg : String)
deriving DecidableEq

instance {ε α : Type} [DecidableEq ε] [DecidableEq α] :
    DecidableEq (Except ε α) := fun x y =>
  match x, y with
  | Except.error a, Except.error b => decidable_of_iff (a = b) (by simp)
  | Except.error _, Except.ok _ => isFalse (fun hc => Except.noConfusion hc)
  | Except.ok _, Except.error _ => isFalse (fun hc => Except.noConfusion hc)
  | Except.ok a, Except.ok b => decidable_of_iff (a = b) (by simp)

/-- The `notification_data` dict built by `notify` (lines 256-263), plus the
`notification_id` that `archive_notification` adds on success. -/
structure NotificationData where
  user_id : Nat
  title : String
  body : String
  emergency_type : String
  priority : String
  results : List SendResult
  notification_id : Option Nat
deriving DecidableEq

/-- Observable effect of one `notify` call: its outcome, the circuit-breaker
state after the call, the channels on which delivery was attempted, and
whether the archiving collaborator was invoked. -/
structure NotifyTrace where
  outcome : Except NotifyError NotificationData
  cb : CircuitBreaker
  attempted : List Channel
  archiveCalled : Bool
deriving DecidableEq

/-- The tail of the `try` block of `notify` (lines 265-268) given the
archiving collaborator outcome: on success attach the new id and
`record_success`; on an archiving exception `record_failure` and re-raise
(lines 270-272, via `ArchiveMixin.archive_notification` re-raising at line
188). -/
def archive_and_record (cb1 : CircuitBreaker) (now : Nat)
    (data : NotificationData) (attempted : List Channel)
    (archive : Except String Nat) : NotifyTrace :=
  match archive with
  | Except.ok nid =>
    { outcome := Except.ok { data with notification_id := some nid },
      cb := record_success cb1, attempted := attempted, archiveCalled := true }
  | Except.error e =>
    { outcome := Except.error (NotifyError.archiveFailed e),
      cb := record_failure cb1 now, attempted := attempted,
      archiveCalled := true }

/-- `AcademicNotifier.notify` (lines 236-272): reject when the breaker is
open (before the `try`, so nothing is recorded); otherwise resolve
priority, format the message, deliver on all channels for CRITICAL or on
the single preferred channel otherwise, then archive and record the
outcome on the breaker.  `fails c i` says whether attempt `i` on channel
`c` raises; `archive` is the archiving collaborator outcome. -/
def notify (cb0 : CircuitBreaker) (now : Nat) (user : User)
    (title body : String) (emergency_type : EmergencyType)
    (fails : Channel → Nat → Bool) (archive : Except String Nat) :
    NotifyTrace :=
  let chk := is_circuit_open cb0 now
  if chk.1 then
    { outcome := Except.error NotifyError.circuitOpen, cb := chk.2,
      attempted := [], archiveCalled := false }
  else
    let cb1 := chk.2
    let priority := get_priority emergency_type
    let message := format_message title body (some emergency_type)
    let mkData : List SendResult → NotificationData := fun results =>
      { user_id := user.id, title := title, body := body,
        emergency_type := emergency_type.value, priority := priority.pname,
        results := results, notification_id := none }
    if priority = Priority.CRITICAL then
      let sc := send_all_channels fails message user
      archive_and_record cb1 now (mkData sc.1) sc.2 archive
    else
      if user.prefers_email then
        match (send_email (fails Channel.email) message user.email).1 with
        | Except.error e =>
          { outcome := Except.error (NotifyError.delivery e),
            cb := record_failure cb1 now, attempted := [Channel.email],
            archiveCalled := false }
        | Except.ok r =>
          archive_and_record cb1 now (mkData [r]) [Channel.email] archive
      else
        match (send_push (fails Channel.push) message user.id).1 with
        | Except.error e =>
          { outcome := Except.error (NotifyError.delivery e),
            cb := record_failure cb1 now, attempted := [Channel.push],
            archiveCalled := false }
        | Except.ok r =>
          archive_and_record cb1 now (mkData [r]) [Channel.push] archive

lemma archive_and_record_attempted (cb1 : CircuitBreaker) (now : Nat)
    (data : NotificationData) (att : List Channel)
    (archive : Except String Nat) :
    (archive_and_record cb1 now data att archive).attempted = att := by
  cases archive <;> rfl

lemma archive_and_record_not_circuit_open (cb1 : CircuitBreaker) (now : Nat)
    (data : NotificationData) (att : List Channel)
    (archive : Except String Nat) :
    ¬ (archive_and_record cb1 now data att archive).outcome =
      Except.error NotifyError.circuitOpen := by
  cases archive <;> simp [archive_and_record]

lemma send_all_channels_attempts (fails : Channel → Nat → Bool)
    (message : String) (u : User) :
    (send_all_channels fails message u).2 =
      [Channel.email, Channel.push] ++
        (if hasPhone u then [Channel.sms] else []) := by
  by_cases h : hasPhone u = true <;> simp [send_all_channels, h]

lemma is_circuit_open_true_fix (s : CircuitBreaker) (now : Nat)
    (h : (is_circuit_open s now).1 = true) : (is_circuit_open s now).2 = s := by
  revert h
  unfold is_circuit_open
  rcases hlf : s.last_failure with _ | lf
  · intro h; simp at h
  · by_cases h1 : s.max_failures ≤ s.failures
    · simp only [if_pos h1]
      by_cases h2 : elapsed_seconds now lf < s.timeout
      · intro _; simp [h2]
      · intro h; simp [h2] at h
    · intro h; simp [h1] at h

/-- Claim C5: with the breaker closed, for every priority other than
CRITICAL exactly one channel is attempted — email when `prefers_email`,
else push; for CRITICAL, email and push are always attempted and SMS
exactly when the user has a non-empty phone number, and the attempted set
does not depend on the per-attempt fault oracle, so a failure on one
channel never aborts the others. -/
theorem C5_channels_attempted (cb : CircuitBreaker) (now : Nat) (user : User)
    (title body : String) (etype : EmergencyType)
    (fails : Channel → Nat → Bool) (archive : Except String Nat)
    (hclosed : (is_circuit_open cb now).1 = false) :
    (notify cb now user title body etype fails archive).attempted =
      (if get_priority etype = Priority.CRITICAL then
        [Channel.email, Channel.push] ++
          (if hasPhone user then [Channel.sms] else [])
      else if user.prefers_email then [Channel.email] else [Channel.push]) := by
  by_cases hp : get_priority etype = Priority.CRITICAL
  · simp [notify, hclosed, hp, archive_and_record_attempted,
      send_all_channels_attempts]
  · by_cases he : user.prefers_email = true
    · cases hs : (send_email (fails Channel.email)
          (format_message title body (some etype)) user.email).1 with
      | error e => simp [notify, hclosed, hp, he, hs]
      | ok r => simp [notify, hclosed, hp, he, hs, archive_and_record_attempted]
    · cases hs : (send_push (fails Channel.push)
          (format_message title body (some etype)) user.id).1 with
      | error e => simp [notify, hclosed, hp, he, hs]
      | ok r => simp [notify, hclosed, hp, he, hs, archive_and_record_attempted]

/-- A user with a non-empty phone number. -/
def demoUserPhone : User :=
  { id := 1, email := "a@b.c", phone := some "0788", prefers_email := true }

/-- Witness for C5: a SECURITY (CRITICAL) notification to a user with a
phone attempts exactly email, push and SMS. -/
theorem C5_channels_attempted_witness :
    (notify (cbInit 5 60) 0 demoUserPhone "t" "b" EmergencyType.SECURITY
        (fun _ _ => false) (Except.ok 7)).attempted =
      [Channel.email, Channel.push, Channel.sms] := by
  rw [C5_channels_attempted (cbInit 5 60) 0 demoUserPhone "t" "b"
    EmergencyType.SECURITY (fun _ _ => false) (Except.ok 7) (by decide)]
  decide

/-- Claim C9: a notify call rejected by the open circuit breaker leaves the
breaker state exactly as it was — the rejection is raised before the
`try`/`except` that calls `record_failure`, and the open branch of
`is_circuit_open` does not mutate — and it attempts no delivery and no
archiving. -/
theorem C9_circuit_open_preserves_state (cb : CircuitBreaker) (now : Nat)
    (user : User) (title body : String) (etype : EmergencyType)
    (fails : Channel → Nat → Bool) (archive : Except String Nat)
    (h : (notify cb now user title body etype fails archive).outcome =
      Except.error NotifyError.circuitOpen) :
    (notify cb now user title body etype fails archive).cb = cb ∧
    (notify cb now user title body etype fails archive).attempted = [] ∧
    (notify cb now user title body etype fails archive).archiveCalled = false := by
  by_cases hchk : (is_circuit_open cb now).1 = true
  · simp [notify, hchk, is_circuit_open_true_fix cb now hchk]
  · exfalso
    rw [Bool.not_eq_true] at hchk
    by_cases hp : get_priority etype = Priority.CRITICAL
    · simp only [notify, hchk, Bool.false_eq_true, if_false, hp, if_true] at h
      exact archive_and_record_not_circuit_open _ _ _ _ _ h
    · by_cases he : user.prefers_email = true
      · rcases hs : (send_email (fails Channel.email)
            (format_message title body (some etype)) user.email).1 with e | r
        · simp [notify, hchk, hp, he, hs] at h
        · simp only [notify, hchk, Bool.false_eq_true, if_false, hp, he,
            if_true, hs] at h
          exact archive_and_record_not_circuit_open _ _ _ _ _ h
      · rcases hs : (send_push (fails Channel.push)
            (format_message title body (some etype)) user.id).1 with e | r
        · simp [notify, hchk, hp, he, hs] at h
        · simp only [notify, hchk, Bool.false_eq_true, if_false, hp, he,
            Bool.false_eq_true, if_false, hs] at h
          exact archive_and_record_not_circuit_open _ _ _ _ _ h

/-- A breaker that has just recorded its 5th consecutive failure at t = 0
(the `add_circuit_breaker(max_failures=5, timeout=60)` configuration of
`AcademicNotifier`). -/
def cbOpen5 : CircuitBreaker :=
  { failures := 5, last_failure := some 0, max_failures := 5, timeout := 60 }

/-- A user with no phone number who prefers email. -/
def demoUser : User :=
  { id := 1, email := "a@b.c", phone := none, prefers_email := true }

/-- Witness for C9: a rejected call on an open breaker changes nothing. -/
theorem C9_circuit_open_preserves_state_witness :
    (notify cbOpen5 0 demoUser "t" "b" EmergencyType.ACADEMIC
      (fun _ _ => true) (Except.error "db")).cb = cbOpen5 ∧
    (notify cbOpen5 0 demoUser "t" "b" EmergencyType.ACADEMIC
      (fun _ _ => true) (Except.error "db")).attempted = [] ∧
    (notify cbOpen5 0 demoUser "t" "b" EmergencyType.ACADEMIC
      (fun _ _ => true) (Except.error "db")).archiveCalled = false :=
  C9_circuit_open_preserves_state cbOpen5 0 demoUser "t" "b"
    EmergencyType.ACADEMIC (fun _ _ => true) (Except.error "db") (by decide)

lemma send_email_first_ok (message email : String) :
    (send_email (fun _ => false) message email).1 =
      Except.ok { channel := "Email", recipient := email, message := message } :=
  rfl

lemma send_push_first_ok (message : String) (user_id : Nat) :
    (send_push (fun _ => false) message user_id).1 =
      Except.ok { channel := "Push", recipient := toString user_id,
                  message := message } :=
  rfl

/-- Claim C10: when the breaker is closed, every delivery succeeds and the
archiving step raises, `notify` records a failure (not a success) on the
breaker — incrementing the failure count by one exactly as a delivery
failure would — and propagates the archiving error. -/
theorem C10_archive_failure_records_failure (cb : CircuitBreaker) (now : Nat)
    (user : User) (title body : String) (etype : EmergencyType) (e : String)
    (hclosed : (is_circuit_open cb now).1 = false) :
    (notify cb now user title body etype (fun _ _ => false)
        (Except.error e)).outcome =
      Except.error (NotifyError.archiveFailed e) ∧
    (notify cb now user title body etype (fun _ _ => false)
        (Except.error e)).cb =
      record_failure (is_circuit_open cb now).2 now ∧
    (notify cb now user title body etype (fun _ _ => false)
        (Except.error e)).cb.failures =
      (is_circuit_open cb now).2.failures + 1 ∧
    (notify cb now user title body etype (fun _ _ => false)
        (Except.error e)).archiveCalled = true := by
  by_cases hp : get_priority etype = Priority.CRITICAL
  · simp [notify, hclosed, hp, archive_and_record, record_failure]
  · by_cases he : user.prefers_email = true
    · simp [notify, hclosed, hp, he, send_email_first_ok,
        archive_and_record, record_failure]
    · simp [notify, hclosed, hp, he, send_push_first_ok,
        archive_and_record, record_failure]

/-- Witness for C10: successful email delivery followed by a failing
archive increments the breaker failure count and propagates the error. -/
theorem C10_archive_failure_records_failure_witness :
    (notify (cbInit 5 60) 0 demoUser "t" "b" EmergencyType.ACADEMIC
        (fun _ _ => false) (Except.error "db")).outcome =
      Except.error (NotifyError.archiveFailed "db") ∧
    (notify (cbInit 5 60) 0 demoUser "t" "b" EmergencyType.ACADEMIC
        (fun _ _ => false) (Except.error "db")).cb =
      record_failure (is_circuit_open (cbInit 5 60) 0).2 0 ∧
    (notify (cbInit 5 60) 0 demoUser "t" "b" EmergencyType.ACADEMIC
        (fun _ _ => false) (Except.error "db")).cb.failures =
      (is_circuit_open (cbInit 5 60) 0).2.failures + 1 ∧
    (notify (cbInit 5 60) 0 demoUser "t" "b" EmergencyType.ACADEMIC
        (fun _ _ => false) (Except.error "db")).archiveCalled = true :=
  C10_archive_failure_records_failure (cbInit 5 60) 0 demoUser "t" "b"
    EmergencyType.ACADEMIC "db" (by decide)

/-- A sender whose every attempt on every channel raises (the
forced-failing ChannelSender of the claim-C3 scenario). -/
def allFail : Channel → Nat → Bool := fun _ _ => true

/-- The breaker state of a fresh `AcademicNotifier`
(`add_circuit_breaker(max_failures=5, timeout=60)`). -/
def notifier0 : CircuitBreaker := cbInit 5 60

/-- Breaker state after `n` consecutive `notify` calls with the
forced-failing sender, all at t = 0, on the fresh notifier. -/
def cbAfterCalls : Nat → CircuitBreaker
  | 0 => notifier0
  | Nat.succ n =>
    (notify (cbAfterCalls n) 0 demoUser "t" "b" EmergencyType.ACADEMIC
      allFail (Except.error "db")).cb

/-- The trace of call number `n` (1-based) in that sequence. -/
def callTrace (n : Nat) : NotifyTrace :=
  notify (cbAfterCalls (n - 1)) 0 demoUser "t" "b" EmergencyType.ACADEMIC
    allFail (Except.error "db")

/-- Claim C3, counterexample: with `max_failures = 5`, the 5th consecutive
`notify` call with the forced-failing sender does NOT raise
`CircuitOpenError`: the breaker check precedes the failure recording, so
at the start of the 5th call only 4 failures are recorded; the call still
attempts email delivery and fails with the delivery error. -/
theorem C3_counterexample :
    ¬ (callTrace 5).outcome = Except.error NotifyError.circuitOpen ∧
    (callTrace 5).outcome =
      Except.error (NotifyError.delivery "Echec envoi Email") ∧
    (callTrace 5).attempted = [Channel.email] := by
  decide

/-- Claim C3 (amended): each of the first 5 calls attempts delivery; it is
the 6th consecutive `notify` call that raises `CircuitOpenError`, with no
delivery attempted, no archiving, and the breaker state untouched. -/
theorem C3_sixth_call_circuit_open :
    (callTrace 1).attempted = [Channel.email] ∧
    (callTrace 2).attempted = [Channel.email] ∧
    (callTrace 3).attempted = [Channel.email] ∧
    (callTrace 4).attempted = [Channel.email] ∧
    (callTrace 5).attempted = [Channel.email] ∧
    (callTrace 6).outcome = Except.error NotifyError.circuitOpen ∧
    (callTrace 6).attempted = [] ∧
    (callTrace 6).archiveCalled = false ∧
    (callTrace 6).cb = cbAfterCalls 5 := by
  decide

/-- A fresh `QueuedTask` as both `enqueue` methods construct it
(queue.py lines 174-181 and 340-347): status PENDING, zero retries. -/
def mkQueuedTask (task_id : String) (priority : Int) (max_retries : Nat) :
    QueuedTask :=
  { id := task_id, status := TaskStatus.PENDING, error := none, result := none,
    retry_count := 0, max_retries := max_retries, priority := priority }

/-- State of `AsyncQueue`: the `asyncio.PriorityQueue` contents (entries
`(key, task_id)` in insertion order) and the task registry. -/
structure AsyncQueueState where
  queue : List (Int × String)
  tasks : List (String × QueuedTask)
deriving DecidableEq

/-- The empty `AsyncQueue`. -/
def asyncEmpty : AsyncQueueState := { queue := [], tasks := [] }

/-- `asyncio.PriorityQueue.put`: the entry joins the pool. -/
def pq_put (q : List (Int × String)) (e : Int × String) : List (Int × String) :=
  q ++ [e]

/-- `asyncio.PriorityQueue.get`: removes an entry with the least key (the
heap is a min-heap on the first tuple component; among equal keys the
source's tie-break is unspecified, modelled here as earliest-inserted). -/
def pq_get : List (Int × String) → Option ((Int × String) × List (Int × String))
  | [] => none
  | x :: xs =>
    match pq_get xs with
    | none => some (x, [])
    | some (y, rest) =>
      if x.1 ≤ y.1 then some (x, xs) else some (y, x :: rest)

/-- `AsyncQueue.enqueue` (queue.py lines 171-187): create the task, store
it in the registry, and `put((-priority, task_id))` on the priority
queue. -/
def async_enqueue (s : AsyncQueueState) (task_id : String) (priority : Int)
    (max_retries : Nat) : AsyncQueueState :=
  { queue := pq_put s.queue (-priority, task_id),
    tasks := s.tasks ++ [(task_id, mkQueuedTask task_id priority max_retries)] }

/-- State of `ThreadPoolQueue`: a plain FIFO `queue.Queue` of task ids and
the task registry. -/
structure ThreadPoolQueueState where
  queue : List String
  tasks : List (String × QueuedTask)
deriving DecidableEq

/-- The empty `ThreadPoolQueue`. -/
def tpEmpty : ThreadPoolQueueState := { queue := [], tasks := [] }

/-- `ThreadPoolQueue.enqueue` (queue.py lines 336-353): create the task,
store it, and `put(task_id)` — only the bare id, on a FIFO queue. -/
def tp_enqueue (s : ThreadPoolQueueState) (task_id : String) (priority : Int)
    (max_retries : Nat) : ThreadPoolQueueState :=
  { queue := s.queue ++ [task_id],
    tasks := s.tasks ++ [(task_id, mkQueuedTask task_id priority max_retries)] }

/-- `queue.Queue.get`: strictly first-in first-out. -/
def tp_get : List String → Option (String × List String)
  | [] => none
  | x :: xs => some (x, xs)

/-- Claim C4, counterexample: on `ThreadPoolQueue`, enqueue a task with
priority 0 and then one with priority 2; the ready queue holds bare ids
(no `(-p, task_id)` pairs) and the worker dequeues the priority-0 task
first, so items are not served in descending priority order. -/
theorem C4_counterexample :
    tp_get ((tp_enqueue (tp_enqueue tpEmpty "t1" 0 3) "t2" 2 3).queue) =
      some ("t1", ["t2"]) ∧
    (((tp_enqueue (tp_enqueue tpEmpty "t1" 0 3) "t2" 2 3).tasks.lookup
        "t1").map QueuedTask.priority) = some 0 ∧
    (((tp_enqueue (tp_enqueue tpEmpty "t1" 0 3) "t2" 2 3).tasks.lookup
        "t2").map QueuedTask.priority) = some 2 ∧
    ¬ (0 : Int) ≥ 2 := by
  decide

/-- Claim C4 (amended): `AsyncQueue.enqueue` pushes `(-priority, task_id)`
onto its min-heap priority queue, so a priority-2 task enqueued on an idle
queue before a priority-0 task is dequeued (and so starts executing)
first — and generally the higher-priority of two queued tasks is served
first; `ThreadPoolQueue.enqueue` instead pushes only the bare task id onto
a FIFO queue, so its dequeue order is insertion order, independent of
priority. -/
theorem C4_queue_orders (s : AsyncQueueState) (t : ThreadPoolQueueState)
    (id1 id2 : String) (p q : Int) (mr : Nat) (hpq : q < p) :
    (async_enqueue s id1 p mr).queue = s.queue ++ [(-p, id1)] ∧
    pq_get ((async_enqueue (async_enqueue asyncEmpty id1 p mr) id2 q
        mr).queue) = some ((-p, id1), [(-q, id2)]) ∧
    (tp_enqueue t id1 p mr).queue = t.queue ++ [id1] := by
  refine ⟨rfl, ?_, rfl⟩
  have hle : -p ≤ -q := by omega
  simp [async_enqueue, asyncEmpty, pq_put, pq_get, hle]

/-- Witness for C4: the scenario of the spec, priority 2 enqueued before
priority 0 on the idle `AsyncQueue`, is dequeued first. -/
theorem C4_queue_orders_witness :
    (async_enqueue asyncEmpty "t1" 2 3).queue = [(-2, "t1")] ∧
    pq_get ((async_enqueue (async_enqueue asyncEmpty "t1" 2 3) "t2" 0
        3).queue) = some ((-2, "t1"), [(0, "t2")]) ∧
    (tp_enqueue tpEmpty "t1" 2 3).queue = ["t1"] :=
  C4_queue_orders asyncEmpty tpEmpty "t1" "t2" 2 0 3 (by decide)

end Flashnotify
